import Mathlib

/-!
Verification of the `stellarium_widget` package (nicegui-stellarium):
a shallow embedding of `stellarium_bridge.py` and `stellarium_widget.py`
together with theorems about the bridge's command/query semantics, the
widget's location clamping and effect ordering, the readiness lifecycle,
and the configuration singleton.
-/

namespace Stellarium

/-- A JavaScript value as seen by the bridge: the browser evaluates a script
fragment and the result is deserialized back to Python.  `null` deserializes
to Python `None`. -/
inductive JSValue where
  | null
  | undefined
  | bool (b : Bool)
  | num (q : ℚ)
  | str (s : String)
deriving DecidableEq, Repr

/-- Outcome of handing a script fragment to the scripting host
(`ui.run_javascript` awaited): either the fragment evaluates to a value, or
the evaluation raises (a JS exception, a host timeout, or the host rejecting
malformed input).  `failure` carries the exception message. -/
inductive EvalOutcome where
  | success (v : JSValue)
  | failure (msg : String)
deriving DecidableEq, Repr

/-- Abstract state of the external engine handle `window.<id>_stel`; the
bridge only needs to know which operations were applied to it, so an
engine operation is left abstract as a string-identified effect with its
numeric/boolean/string payloads already rendered into the fragment. -/
inductive EngineOp where
  | setLatitude (deg : ℚ)
  | setLongitude (deg : ℚ)
  | setUtc (timestamp_ms : ℚ)
  | pointAndLock (name : String)
  | setFov (deg : ℚ)
  | setLayerVisible (layer : String) (visible : Bool)
deriving DecidableEq, Repr

/-- Method `StellariumBridge._run js`: the bridge wraps `js` in
`(function() { var stel = window.<id>_stel; if (!stel) return; js })();`
and hands the wrapped fragment to `ui.run_javascript`, fire-and-forget.
The host is invoked exactly once per command (the dispatch happens whether
or not the handle exists); the guard inside the fragment makes the engine
effects empty when the handle is absent. -/
structure RunTrace where
  /-- how many fragments were handed to the scripting host -/
  dispatched : ℕ
  /-- operations actually applied to the engine handle -/
  engineOps : List EngineOp
  /-- commands queued for later replay (the bridge never queues) -/
  queued : List EngineOp
  /-- errors surfaced to the caller (the bridge never surfaces any) -/
  errors : List String
deriving DecidableEq, Repr

/-- Semantics of `StellariumBridge._run`: `stelPresent` is whether
`window.<id>_stel` is set at evaluation time, `ops` are the engine
operations the fragment body would perform. -/
def runCommand (stelPresent : Bool) (ops : List EngineOp) : RunTrace :=
  { dispatched := 1
    engineOps := if stelPresent then ops else []
    queued := []
    errors := [] }

/-- Evaluation of the query wrapper
`(function() { var stel = ...; if (!stel) return null; body })()`:
with the handle absent the guard returns `null`; otherwise the body runs
against the engine state, here abstracted as the value the body returns. -/
def queryFragmentEval (stelValue : Option JSValue) : JSValue :=
  match stelValue with
  | none => JSValue.null
  | some v => v

/-- Method `StellariumBridge._query`: awaits the host outcome inside
`try: ... except Exception as e: logger.warning(...); return None`.
Returns the deserialized value (JS `null` becomes Python `None`, modelled
as `Option.none`) paired with the number of warnings logged by this call;
the `Except` layer records whether an exception escapes to the caller
(for `_query` it never does: the handler catches everything). -/
def query_run (outcome : EvalOutcome) : Except String (Option JSValue) × ℕ :=
  match outcome with
  | EvalOutcome.success JSValue.null => (Except.ok none, 0)
  | EvalOutcome.success v => (Except.ok (some v), 0)
  | EvalOutcome.failure _ => (Except.ok none, 1)

/-- The browser-side value of `window.<id>_ready === true` given the current
value of the flag `window.<id>_ready` (`undefined` when not yet defined):
strict equality against `true` yields a boolean. -/
def readyExprEval (flag : JSValue) : JSValue :=
  JSValue.bool (flag = JSValue.bool true)

/-- Method `StellariumBridge.is_ready`: awaits
`ui.run_javascript('window.<id>_ready === true')` with NO try/except and
returns `result is True`.  A host failure therefore propagates to the
caller; a successful evaluation returns whether the deserialized result is
exactly the boolean `true`. -/
def is_ready_run (outcome : EvalOutcome) : Except String Bool :=
  match outcome with
  | EvalOutcome.success v => Except.ok (v = JSValue.bool true)
  | EvalOutcome.failure msg => Except.error msg

/-- The altitude query's final normalization step,
`if (alt > 180) alt -= 360;`, applied to the raw degree value
`stel.anp(azalt[1]) / stel.D2R`. -/
def altitudeNormalize (raw : ℚ) : ℚ :=
  if raw > 180 then raw - 360 else raw

/-- The azimuth query returns `stel.anp(azalt[0]) / stel.D2R` unchanged:
no normalization step is applied to the raw azimuth. -/
def azimuthFinalize (raw : ℚ) : ℚ := raw

/-- Latitude clamp in `StellariumWidget.set_location`: via
`max(-90, min(90, latitude))`. -/
def clampLat (latitude : ℚ) : ℚ := max (-90) (min 90 latitude)

/-- Longitude clamp in `StellariumWidget.set_location`: via
`max(-180, min(180, longitude))`. -/
def clampLon (longitude : ℚ) : ℚ := max (-180) (min 180 longitude)

/-- One command operation of `StellariumBridge` together with its caller
supplied arguments (location, datetime, camera target, field of view, and
each layer-visibility setter). -/
inductive BridgeCommand where
  | set_location (latitude longitude : ℚ)
  | set_datetime (timestamp_ms : ℚ)
  | look_at_object (name : String)
  | set_fov (fov_degrees : ℚ)
  | set_constellation_lines (visible : Bool)
  | set_constellation_labels (visible : Bool)
  | set_atmosphere (visible : Bool)
  | set_landscape (visible : Bool)
  | set_azimuthal_grid (visible : Bool)
  | set_equatorial_grid (visible : Bool)
  | set_milkyway (visible : Bool)
deriving DecidableEq, Repr

/-- Engine operations performed by the body of each command fragment once
the `stel` guard has passed; `resolves` says which object names
`stel.getObj` resolves (the `look_at_object` body guards on `if (obj)`). -/
def commandOps (resolves : String → Bool) : BridgeCommand → List EngineOp
  | BridgeCommand.set_location lat lon =>
      [EngineOp.setLatitude lat, EngineOp.setLongitude lon]
  | BridgeCommand.set_datetime ts => [EngineOp.setUtc ts]
  | BridgeCommand.look_at_object name =>
      if resolves name then [EngineOp.pointAndLock name] else []
  | BridgeCommand.set_fov d => [EngineOp.setFov d]
  | BridgeCommand.set_constellation_lines v =>
      [EngineOp.setLayerVisible "constellations.lines_visible" v]
  | BridgeCommand.set_constellation_labels v =>
      [EngineOp.setLayerVisible "constellations.labels_visible" v]
  | BridgeCommand.set_atmosphere v => [EngineOp.setLayerVisible "atmosphere.visible" v]
  | BridgeCommand.set_landscape v => [EngineOp.setLayerVisible "landscapes.visible" v]
  | BridgeCommand.set_azimuthal_grid v =>
      [EngineOp.setLayerVisible "lines.azimuthal.visible" v]
  | BridgeCommand.set_equatorial_grid v =>
      [EngineOp.setLayerVisible "lines.equatorial.visible" v]
  | BridgeCommand.set_milkyway v => [EngineOp.setLayerVisible "milkyway.visible" v]

/-- Dispatch of one bridge command: every command method renders its
fragment and passes it to `_run`, which always hands one wrapped fragment
to the host; the guard drops the body when the handle is absent. -/
def dispatchCommand (resolves : String → Bool) (stelPresent : Bool)
    (c : BridgeCommand) : RunTrace :=
  runCommand stelPresent (commandOps resolves c)

/-- Mirror of the `StellariumState` dataclass with its field defaults
(`datetime_utc` is omitted: it defaults to the wall clock at construction
and no claim concerns it). -/
structure StellariumState where
  latitude : ℚ := 40.03784
  longitude : ℚ := -75.34238
  altitude : ℚ := 142.0
  fov : ℚ := 60.0
  is_loaded : Bool := false
  is_ready : Bool := false
deriving DecidableEq, Repr

/-- Which optional UI element references of the widget are populated
(`_lat_input`, `_lon_input`, `_lat_label`, `_lon_label`); each is `None`
until the corresponding element is rendered. -/
structure UIRefs where
  hasLatInput : Bool
  hasLonInput : Bool
  hasLatLabel : Bool
  hasLonLabel : Bool
deriving DecidableEq, Repr

/-- Observable effects of `StellariumWidget.set_location`, in the order the
method performs them. -/
inductive WidgetEffect where
  | storeState (latitude longitude altitude : ℚ)
  | setLatInputValue (v : ℚ)
  | setLonInputValue (v : ℚ)
  | setLatLabelText (v : ℚ)
  | setLonLabelText (v : ℚ)
  | bridgeSetLocation (latitude longitude : ℚ)
deriving DecidableEq, Repr

/-- Method `StellariumWidget.set_location(latitude, longitude, altitude)`:
clamps, stores the clamped values in `self.state`, updates the input
fields and status labels that exist, and finally calls
`self._bridge.set_location` once with the clamped values.  Returns the new
state and the effect sequence in program order. -/
def widget_set_location (s : StellariumState) (ui : UIRefs)
    (latitude longitude altitude : ℚ) : StellariumState × List WidgetEffect :=
  let lat := clampLat latitude
  let lon := clampLon longitude
  let s1 := { s with latitude := lat, longitude := lon, altitude := altitude }
  let inputEffects :=
    (if ui.hasLatInput then [WidgetEffect.setLatInputValue lat] else []) ++
    (if ui.hasLonInput then [WidgetEffect.setLonInputValue lon] else [])
  let labelEffects :=
    (if ui.hasLatLabel then [WidgetEffect.setLatLabelText lat] else []) ++
    (if ui.hasLonLabel then [WidgetEffect.setLonLabelText lon] else [])
  (s1, WidgetEffect.storeState lat lon altitude ::
        (inputEffects ++ labelEffects ++ [WidgetEffect.bridgeSetLocation lat lon]))

/-- Which optional references `_check_engine_ready` consults
(`_status_label`, `_ready_indicator`, `_check_timer`). -/
structure PollRefs where
  hasStatusLabel : Bool
  hasReadyIndicator : Bool
  hasTimer : Bool
deriving DecidableEq, Repr

/-- Side effects performed by one invocation of `_check_engine_ready`. -/
structure PollEffects where
  statusLabelUpdates : ℕ
  indicatorUpdates : ℕ
  timerCancels : ℕ
deriving DecidableEq, Repr

/-- Method `StellariumWidget._check_engine_ready`: awaits
`self._bridge.is_ready()` inside a try/except that swallows every
exception; on a `True` result it unconditionally sets
`state.is_ready = True`, updates the status label and ready indicator if
present, and cancels the check timer if present.  There is no guard on
`state.is_ready`: the body runs again on every invocation whose poll
returns `True`. -/
def check_engine_ready (s : StellariumState) (refs : PollRefs)
    (poll : Except String Bool) : StellariumState × PollEffects :=
  match poll with
  | Except.error _ => (s, ⟨0, 0, 0⟩)
  | Except.ok b =>
    if b then
      ({ s with is_ready := true },
       { statusLabelUpdates := if refs.hasStatusLabel then 1 else 0
         indicatorUpdates := if refs.hasReadyIndicator then 1 else 0
         timerCancels := if refs.hasTimer then 1 else 0 })
    else (s, ⟨0, 0, 0⟩)

/-- State of the timer-driven readiness loop started by
`_inject_init_script` (a `ui.timer(0.5, self._check_engine_ready)`):
the timer invokes the callback while active and stops once
`self._check_timer.cancel()` has been called. -/
structure TimerRunState where
  state : StellariumState
  refs : PollRefs
  timerActive : Bool
  totalStatusLabelUpdates : ℕ
  totalTimerCancels : ℕ
deriving DecidableEq, Repr

/-- One tick of the readiness timer: if the timer is still active it
invokes `_check_engine_ready` on the next poll outcome; a cancel issued by
the callback deactivates the timer. -/
def timerStep (r : TimerRunState) (poll : Except String Bool) : TimerRunState :=
  if r.timerActive then
    let out := check_engine_ready r.state r.refs poll
    { r with
      state := out.1
      timerActive := decide (out.2.timerCancels = 0)
      totalStatusLabelUpdates := r.totalStatusLabelUpdates + out.2.statusLabelUpdates
      totalTimerCancels := r.totalTimerCancels + out.2.timerCancels }
  else r

/-- The readiness loop over a list of poll outcomes. -/
def timerRun (r : TimerRunState) (polls : List (Except String Bool)) : TimerRunState :=
  polls.foldl timerStep r

/-- Lifecycle-relevant state of one `StellariumWidget` instance: its
`StellariumState` plus what `render`/`_inject_init_script` have done. -/
structure WidgetLifecycle where
  state : StellariumState
  headScriptAdded : Bool
  initDispatched : Bool
  checkTimerScheduled : Bool
deriving DecidableEq, Repr

/-- Constructor `StellariumWidget.__init__`: builds
`StellariumState(latitude=40.03784, longitude=-75.34238)` (all other
fields at their dataclass defaults) and has rendered nothing yet. -/
def widgetInit : WidgetLifecycle :=
  { state := { latitude := 40.03784, longitude := -75.34238 }
    headScriptAdded := false
    initDispatched := false
    checkTimerScheduled := false }

/-- Method `StellariumWidget._inject_init_script`: adds the init script tag
to the page head, dispatches `initStellariumWidget(args)` to the host, and
schedules the 0.5 s readiness timer.  It performs no assignment to
`self.state`; in particular `state.is_loaded` is left untouched. -/
def inject_init_script (w : WidgetLifecycle) : WidgetLifecycle :=
  { w with headScriptAdded := true, initDispatched := true,
           checkTimerScheduled := true }

/-- Method `StellariumWidget.render`: mounts the configuration, builds the
UI elements, and calls `_inject_init_script`; none of these steps writes to
`self.state` (element construction only reads it for initial values). -/
def widgetRender (w : WidgetLifecycle) : WidgetLifecycle :=
  inject_init_script w

/-- Mirror of the `StellariumConfig` dataclass: the two path attributes
(`None` when not supplied), the URL prefix, the resolved URLs (empty until
`_set_urls` runs), and the per-instance `_mounted` flag. -/
structure StellariumConfig where
  build_dir : Option String := none
  data_dir : Option String := none
  urlPref : String := "/swe"
  js_url : String := ""
  wasm_url : String := ""
  data_url : String := ""
  init_script_url : String := ""
  mounted : Bool := false
deriving DecidableEq, Repr

/-- Method `StellariumConfig.validate`: only when `build_dir` is truthy
(set) does it check that `build_dir / 'stellarium-web-engine.js'` exists,
raising `FileNotFoundError` otherwise.  No other path — not the `.wasm`
payload, not `data_dir` — is checked.  `fs` is the file system: the set of
existing paths. -/
def StellariumConfig.validate (fs : String → Bool) (c : StellariumConfig) :
    Except String Unit :=
  match c.build_dir with
  | none => Except.ok ()
  | some bd =>
      if fs (bd ++ "/stellarium-web-engine.js") then Except.ok ()
      else Except.error "FileNotFoundError: stellarium-web-engine.js not found"

/-- Method `StellariumConfig._set_urls`: resolves the four URLs under the
configured prefix. -/
def StellariumConfig.set_urls (c : StellariumConfig) : StellariumConfig :=
  { c with
    js_url := c.urlPref ++ "/build/stellarium-web-engine.js"
    wasm_url := c.urlPref ++ "/build/stellarium-web-engine.wasm"
    data_url := c.urlPref ++ "/data/"
    init_script_url := c.urlPref ++ "/components/stellarium_init.js" }

/-- String rendering of an optional path, as `str(path)` renders `None`. -/
def pathStr : Option String → String
  | none => "None"
  | some p => p

/-- Process-wide state for `StellariumConfig`: the instances that exist
(indexed by position), the class attribute `_active` (an index into the
store), and the static-file mounts registered with the app so far, each a
pair of URL path and served directory. -/
structure ConfigProcess where
  store : List StellariumConfig
  active : Option ℕ
  staticMounts : List (String × String)
deriving DecidableEq, Repr

/-- Method `StellariumConfig.mount` called on instance `i`: returns self if
this instance is already mounted; else returns the active instance if one
exists; else validates, registers the three static mounts, resolves URLs,
and marks itself mounted and active.  Each `app.add_static_files` call
constructs a Starlette `StaticFiles(directory=...)`, whose directory check
raises `RuntimeError` synchronously when the served directory does not
exist, so the build and data directories are each existence-checked at
registration time, in call order (a failure on the data mount leaves the
build mount already registered and nothing marked mounted or active); the
components mount serves the package's own directory, which always exists
in a running process.  The result is the new process state with the index
of the returned instance, or the raised error. -/
def StellariumConfig.mountStep (fs : String → Bool) (p : ConfigProcess)
    (i : ℕ) : ConfigProcess × Except String ℕ :=
  match p.store[i]? with
  | none => (p, Except.error "IndexError: no such instance")
  | some c =>
    if c.mounted then (p, Except.ok i)
    else
      match p.active with
      | some j => (p, Except.ok j)
      | none =>
        match c.validate fs with
        | Except.error e => (p, Except.error e)
        | Except.ok _ =>
          if fs (pathStr c.build_dir) then
            let p1 := { p with staticMounts := p.staticMounts ++
              [(c.urlPref ++ "/build", pathStr c.build_dir)] }
            if fs (pathStr c.data_dir) then
              let p2 := { p1 with staticMounts := p1.staticMounts ++
                [(c.urlPref ++ "/data", pathStr c.data_dir),
                 (c.urlPref ++ "/components", "stellarium_widget")] }
              let c2 := { c.set_urls with mounted := true }
              ({ p2 with store := p2.store.set i c2, active := some i },
               Except.ok i)
            else
              (p1, Except.error
                ("RuntimeError: directory does not exist: " ++ pathStr c.data_dir))
          else
            (p, Except.error
              ("RuntimeError: directory does not exist: " ++ pathStr c.build_dir))

/-- Classmethod `StellariumConfig.auto_discover`: walks the parents of the
package file looking for an existing `extern/stellarium` directory; builds
a config from the first hit or raises `RuntimeError` when none matches. -/
def StellariumConfig.auto_discover (fs : String → Bool)
    (parents : List String) : Except String StellariumConfig :=
  match parents.find? (fun parent => fs (parent ++ "/extern/stellarium")) with
  | some parent =>
      Except.ok { build_dir := some (parent ++ "/extern/stellarium/build")
                  data_dir := some (parent ++ "/extern/stellarium/apps/test-skydata") }
  | none => Except.error "RuntimeError: Could not auto-discover Stellarium paths"

/-- Whether a widget effect is the dispatch to the Bridge. -/
def WidgetEffect.isBridgeDispatch : WidgetEffect → Bool
  | WidgetEffect.bridgeSetLocation _ _ => true
  | _ => false

/-- Whether a widget effect is an update of a bound display element
(input field value or status label text). -/
def WidgetEffect.isDisplayUpdate : WidgetEffect → Bool
  | WidgetEffect.setLatInputValue _ => true
  | WidgetEffect.setLonInputValue _ => true
  | WidgetEffect.setLatLabelText _ => true
  | WidgetEffect.setLonLabelText _ => true
  | _ => false

/-- Invariant of the timer-driven readiness loop: with the check timer
reference populated, the loop has performed at most one cancel and at most
one status update, and has performed none while the timer is still
active. -/
def timerInv (r : TimerRunState) : Prop :=
  r.refs.hasTimer = true ∧
  (r.timerActive = true → r.totalTimerCancels = 0 ∧ r.totalStatusLabelUpdates = 0) ∧
  r.totalTimerCancels ≤ 1 ∧ r.totalStatusLabelUpdates ≤ 1

/-- A concrete file system on which the build directory `b`, the engine
script inside it, and the data directory `d` exist — but the binary
payload `b/stellarium-web-engine.wasm` does not. -/
def fsNoWasm : String → Bool :=
  fun s => s == "b" || s == "d" || s == "b/stellarium-web-engine.js"

/-- A concrete configuration pointing at build directory `b` and data
directory `d`. -/
def cfgBD : StellariumConfig := { build_dir := some "b", data_dir := some "d" }

/-- The process state holding the single instance `cfgBD`, nothing mounted
and no configuration active. -/
def procFresh : ConfigProcess := { store := [cfgBD], active := none, staticMounts := [] }

/-- The process state after `cfgBD.mount()` succeeded on `fsNoWasm`. -/
def procMounted : ConfigProcess := (StellariumConfig.mountStep fsNoWasm procFresh 0).1

/-- C1 counterexample: the claim fails on two points.  First,
`is_ready` has no exception handler, so a host failure (here a timeout)
propagates to the caller instead of resolving: the outcome is not `ok`.
Second, a `_query` issued while the external handle is absent evaluates
successfully to `null` (the guard inside the fragment), so the except
branch never runs and zero warnings are logged, not exactly one. -/
theorem c1_counterexample :
    (is_ready_run (EvalOutcome.failure "JavaScript did not respond")).isOk = false ∧
    (query_run (EvalOutcome.success (queryFragmentEval none))).2 = 0 :=
  ⟨rfl, rfl⟩

/-- C1 amended: `get_object_altitude` and `get_object_azimuth` run through
`_query`, which never propagates: it resolves to the value on success and
to `None` with exactly one logged warning on an evaluation failure; with
the external handle absent the guarded fragment evaluates successfully to
`null`, so the query resolves to `None` with zero warnings; `is_ready`,
by contrast, has no handler and propagates host failures to its caller. -/
theorem c1_query_best_effort (outcome : EvalOutcome) (msg : String) (v : JSValue)
    (hv : v ≠ JSValue.null) :
    (query_run outcome).1.isOk = true ∧
    query_run (EvalOutcome.failure msg) = (Except.ok none, 1) ∧
    query_run (EvalOutcome.success (queryFragmentEval none)) = (Except.ok none, 0) ∧
    query_run (EvalOutcome.success v) = (Except.ok (some v), 0) ∧
    is_ready_run (EvalOutcome.failure msg) = Except.error msg := by
  refine ⟨?_, rfl, rfl, ?_, rfl⟩
  · cases outcome with
    | success v2 => cases v2 <;> rfl
    | failure m => rfl
  · cases v <;> simp_all [query_run]

/-- Witness for the C1 amended theorem at a concrete non-null value. -/
theorem c1_witness :
    JSValue.num 12 ≠ JSValue.null ∧
    ((query_run (EvalOutcome.success JSValue.undefined)).1.isOk = true ∧
     query_run (EvalOutcome.failure "timeout") = (Except.ok none, 1) ∧
     query_run (EvalOutcome.success (queryFragmentEval none)) = (Except.ok none, 0) ∧
     query_run (EvalOutcome.success (JSValue.num 12)) = (Except.ok (some (JSValue.num 12)), 0) ∧
     is_ready_run (EvalOutcome.failure "timeout") = Except.error "timeout") :=
  ⟨by decide, c1_query_best_effort (EvalOutcome.success JSValue.undefined) "timeout"
      (JSValue.num 12) (by decide)⟩

/-- C2 counterexample: a command issued while the external handle is absent
does dispatch a fragment — `_run` hands its wrapped fragment to
`ui.run_javascript` unconditionally — so the number of dispatched
fragments is 1, not 0 as the claim states. -/
theorem c2_counterexample :
    (dispatchCommand (fun _ => false) false (BridgeCommand.set_location 40 (-75))).dispatched = 1 ∧
    ¬ (dispatchCommand (fun _ => false) false (BridgeCommand.set_location 40 (-75))).dispatched = 0 :=
  ⟨rfl, by decide⟩

/-- C2 amended: for every command operation, if the external handle is
absent at evaluation time the command still dispatches exactly one wrapped
fragment, but the guard preceding the effect makes it apply zero engine
operations: the command is silently dropped — no engine effect, nothing
queued for replay, no error surfaced; with the handle present the same
dispatch applies the command's engine operations. -/
theorem c2_guarded_silent_drop (resolves : String → Bool) (c : BridgeCommand) :
    dispatchCommand resolves false c =
      { dispatched := 1, engineOps := [], queued := [], errors := [] } ∧
    dispatchCommand resolves true c =
      { dispatched := 1, engineOps := commandOps resolves c, queued := [], errors := [] } := by
  constructor <;> rfl

/-- C3: for every latitude input to `StellariumWidget.set_location` the
stored latitude lies in `[-90, 90]` — input 120 is stored as 90 and input
-200 as -90 — and for every longitude input the stored longitude lies in
`[-180, 180]`. -/
theorem c3_location_clamped (s : StellariumState) (ui : UIRefs)
    (latitude longitude altitude : ℚ) :
    (-90 ≤ (widget_set_location s ui latitude longitude altitude).1.latitude ∧
      (widget_set_location s ui latitude longitude altitude).1.latitude ≤ 90) ∧
    (-180 ≤ (widget_set_location s ui latitude longitude altitude).1.longitude ∧
      (widget_set_location s ui latitude longitude altitude).1.longitude ≤ 180) ∧
    (widget_set_location s ui 120 longitude altitude).1.latitude = 90 ∧
    (widget_set_location s ui (-200) longitude altitude).1.latitude = -90 := by
  refine ⟨⟨le_max_left _ _, max_le (by norm_num) (min_le_left _ _)⟩,
          ⟨le_max_left _ _, max_le (by norm_num) (min_le_left _ _)⟩, ?_, ?_⟩
  · show clampLat 120 = 90
    norm_num [clampLat, min_def, max_def]
  · show clampLat (-200) = -90
    norm_num [clampLat, min_def, max_def]

/-- C5: the altitude-query fragment normalizes the raw altitude (which the
engine's `anp` supplies in `[0, 360)`) into `(-180, 180]` by subtracting
360 exactly when the raw value exceeds 180 — 200 normalizes to -160, 170
stays 170, 180 stays 180 — while the azimuth query applies no
normalization. -/
theorem c5_altitude_normalization (raw : ℚ) (h0 : 0 ≤ raw) (h1 : raw < 360) :
    (-180 < altitudeNormalize raw ∧ altitudeNormalize raw ≤ 180) ∧
    (∀ q : ℚ, 180 < q → altitudeNormalize q = q - 360) ∧
    (∀ q : ℚ, q ≤ 180 → altitudeNormalize q = q) ∧
    altitudeNormalize 200 = -160 ∧
    altitudeNormalize 170 = 170 ∧
    altitudeNormalize 180 = 180 ∧
    (∀ q : ℚ, azimuthFinalize q = q) := by
  refine ⟨?_, ?_, ?_, ?_, ?_, ?_, fun q => rfl⟩
  · unfold altitudeNormalize
    split <;> constructor <;> linarith
  · intro q hq
    simp [altitudeNormalize, hq]
  · intro q hq
    simp [altitudeNormalize, not_lt.mpr hq]
  · norm_num [altitudeNormalize]
  · norm_num [altitudeNormalize]
  · norm_num [altitudeNormalize]

/-- Witness for C5 at raw value 200. -/
theorem c5_witness :
    ((0:ℚ) ≤ 200 ∧ (200:ℚ) < 360) ∧
    ((-180 < altitudeNormalize 200 ∧ altitudeNormalize 200 ≤ 180) ∧
     (∀ q : ℚ, 180 < q → altitudeNormalize q = q - 360) ∧
     (∀ q : ℚ, q ≤ 180 → altitudeNormalize q = q) ∧
     altitudeNormalize 200 = -160 ∧
     altitudeNormalize 170 = 170 ∧
     altitudeNormalize 180 = 180 ∧
     (∀ q : ℚ, azimuthFinalize q = q)) :=
  ⟨⟨by norm_num, by norm_num⟩, c5_altitude_normalization 200 (by norm_num) (by norm_num)⟩

/-- C7: the claim's first half holds — the state is
`(is_loaded := false, is_ready := false)` at construction — but the code
never assigns `is_loaded` anywhere, so after `render` (which injects the
init script and schedules the readiness timer) `is_loaded` is still
`false`, contradicting the claimed Uninitialized-to-Loaded transition. -/
theorem c7_is_loaded_never_set :
    widgetInit.state.is_loaded = false ∧
    widgetInit.state.is_ready = false ∧
    (widgetRender widgetInit).initDispatched = true ∧
    (widgetRender widgetInit).checkTimerScheduled = true ∧
    (widgetRender widgetInit).state.is_loaded = false :=
  ⟨rfl, rfl, rfl, rfl, rfl⟩

/-- C10: `is_ready` always resolves a successful evaluation to a boolean —
never to an absent value — and the result is `True` exactly when the
evaluated expression (strict equality of the readiness flag against
`true`) yields the boolean `true`; every other flag value (null,
undefined, a truthy number, a truthy string) yields `False`. -/
theorem c10_is_ready_boolean (flag v : JSValue) :
    is_ready_run (EvalOutcome.success (readyExprEval flag))
      = Except.ok (decide (flag = JSValue.bool true)) ∧
    (is_ready_run (EvalOutcome.success (readyExprEval flag)) = Except.ok true
      ↔ flag = JSValue.bool true) ∧
    is_ready_run (EvalOutcome.success v) = Except.ok (decide (v = JSValue.bool true)) ∧
    is_ready_run (EvalOutcome.success JSValue.null) = Except.ok false ∧
    is_ready_run (EvalOutcome.success JSValue.undefined) = Except.ok false ∧
    is_ready_run (EvalOutcome.success (JSValue.num 1)) = Except.ok false ∧
    is_ready_run (EvalOutcome.success (JSValue.str "true")) = Except.ok false := by
  refine ⟨?_, ?_, rfl, rfl, rfl, rfl, rfl⟩
  · by_cases h : flag = JSValue.bool true <;> simp [is_ready_run, readyExprEval, h]
  · by_cases h : flag = JSValue.bool true <;> simp [is_ready_run, readyExprEval, h]

/-- C4: every `StellariumWidget.set_location(lat, lon, alt)` call produces
exactly one Bridge dispatch, carrying the clamped latitude and longitude
(40.0, -75.0, 100 yields exactly one `set_location(40.0, -75.0)`); local
state holds the clamped values; and the effect order is clamp, then store
local state, then update bound display elements, then dispatch. -/
theorem c4_set_location_order (s : StellariumState) (ui : UIRefs)
    (latitude longitude altitude : ℚ) :
    ((widget_set_location s ui latitude longitude altitude).2.filter
        WidgetEffect.isBridgeDispatch
      = [WidgetEffect.bridgeSetLocation (clampLat latitude) (clampLon longitude)]) ∧
    (widget_set_location s ui latitude longitude altitude).1.latitude = clampLat latitude ∧
    (widget_set_location s ui latitude longitude altitude).1.longitude = clampLon longitude ∧
    (widget_set_location s ui latitude longitude altitude).1.altitude = altitude ∧
    (∃ mid : List WidgetEffect,
      (widget_set_location s ui latitude longitude altitude).2
        = WidgetEffect.storeState (clampLat latitude) (clampLon longitude) altitude
            :: (mid ++ [WidgetEffect.bridgeSetLocation (clampLat latitude) (clampLon longitude)])
      ∧ ∀ e ∈ mid, e.isDisplayUpdate = true) ∧
    ((widget_set_location s ui 40 (-75) 100).2.filter WidgetEffect.isBridgeDispatch
      = [WidgetEffect.bridgeSetLocation 40 (-75)]) ∧
    (widget_set_location s ui 40 (-75) 100).1.latitude = 40 ∧
    (widget_set_location s ui 40 (-75) 100).1.longitude = -75 ∧
    (widget_set_location s ui 40 (-75) 100).1.altitude = 100 := by
  have h40 : clampLat 40 = 40 := by norm_num [clampLat, min_def, max_def]
  have h75 : clampLon (-75) = -75 := by norm_num [clampLon, min_def, max_def]
  obtain ⟨a, b, c, d⟩ := ui
  refine ⟨?_, rfl, rfl, rfl, ?_, ?_, ?_, ?_, rfl⟩
  · cases a <;> cases b <;> cases c <;> cases d <;>
      simp [widget_set_location, WidgetEffect.isBridgeDispatch, List.filter]
  · refine ⟨((if a then [WidgetEffect.setLatInputValue (clampLat latitude)] else []) ++
             (if b then [WidgetEffect.setLonInputValue (clampLon longitude)] else [])) ++
            ((if c then [WidgetEffect.setLatLabelText (clampLat latitude)] else []) ++
             (if d then [WidgetEffect.setLonLabelText (clampLon longitude)] else [])),
           ?_, ?_⟩
    · simp [widget_set_location, List.append_assoc]
    · intro e he
      rcases List.mem_append.mp he with h1 | h1 <;>
        rcases List.mem_append.mp h1 with h2 | h2 <;>
          split at h2 <;> simp_all [WidgetEffect.isDisplayUpdate]
  · cases a <;> cases b <;> cases c <;> cases d <;>
      simp [widget_set_location, WidgetEffect.isBridgeDispatch, List.filter, h40, h75]
  · show clampLat 40 = 40
    exact h40
  · show clampLon (-75) = -75
    exact h75

/-- C6 counterexample: invoking `_check_engine_ready` again on a widget
whose state is already `is_ready = true`, with the status label and the
check timer present and the poll again observing `True`, re-triggers both
side effects — one more status-label update and one more timer cancel —
because the method has no guard on `state.is_ready`. -/
theorem c6_counterexample :
    (check_engine_ready { is_ready := true } ⟨true, false, true⟩
        (Except.ok true)).2.statusLabelUpdates = 1 ∧
    (check_engine_ready { is_ready := true } ⟨true, false, true⟩
        (Except.ok true)).2.timerCancels = 1 :=
  ⟨rfl, rfl⟩

/-- Preservation of `timerInv` by one tick of the readiness timer. -/
theorem timerStep_inv (r : TimerRunState) (poll : Except String Bool)
    (h : timerInv r) : timerInv (timerStep r poll) := by
  obtain ⟨ht, hact, hc, hs⟩ := h
  by_cases hA : r.timerActive = true
  · obtain ⟨hc0, hs0⟩ := hact hA
    cases poll with
    | error m =>
      refine ⟨?_, ?_, ?_, ?_⟩ <;>
        simp [timerStep, check_engine_ready, hA, ht, hc0, hs0]
    | ok b =>
      cases b with
      | false =>
        refine ⟨?_, ?_, ?_, ?_⟩ <;>
          simp [timerStep, check_engine_ready, hA, ht, hc0, hs0]
      | true =>
        refine ⟨?_, ?_, ?_, ?_⟩ <;>
          simp [timerStep, check_engine_ready, hA, ht, hc0, hs0] <;>
          cases hl : r.refs.hasStatusLabel <;> simp
  · have hA2 : r.timerActive = false := by
      cases hval : r.timerActive
      · rfl
      · exact absurd hval hA
    have : timerStep r poll = r := by simp [timerStep, hA2]
    rw [this]
    exact ⟨ht, hact, hc, hs⟩

/-- Preservation of `timerInv` along the whole readiness loop. -/
theorem timerRun_inv (polls : List (Except String Bool)) (r : TimerRunState)
    (h : timerInv r) : timerInv (timerRun r polls) := by
  induction polls generalizing r with
  | nil => exact h
  | cons p t ih => exact ih (timerStep r p) (timerStep_inv r p h)

/-- C6 amended: the callback itself has no idempotence guard — its side
effects depend only on the poll result and on which element references are
populated, never on `state.is_ready`, so a direct re-invocation after the
Ready transition repeats the status update and the cancel; what does hold
is the operational property the spec aims at: along any timer-driven run
started with the timer active, the timer is canceled at most once and the
status label updated at most once, because the first successful poll
deactivates the timer. -/
theorem c6_cancel_once (s : StellariumState) (refs : PollRefs)
    (polls : List (Except String Bool)) (ht : refs.hasTimer = true) :
    (timerRun { state := s, refs := refs, timerActive := true,
                totalStatusLabelUpdates := 0, totalTimerCancels := 0 }
        polls).totalTimerCancels ≤ 1 ∧
    (timerRun { state := s, refs := refs, timerActive := true,
                totalStatusLabelUpdates := 0, totalTimerCancels := 0 }
        polls).totalStatusLabelUpdates ≤ 1 ∧
    (∀ s2 s3 : StellariumState,
      (check_engine_ready s2 refs (Except.ok true)).2
        = (check_engine_ready s3 refs (Except.ok true)).2 ∧
      (check_engine_ready s2 refs (Except.ok true)).1.is_ready = true) := by
  have h := timerRun_inv polls
    { state := s, refs := refs, timerActive := true,
      totalStatusLabelUpdates := 0, totalTimerCancels := 0 }
    ⟨ht, fun _ => ⟨rfl, rfl⟩, Nat.zero_le _, Nat.zero_le _⟩
  exact ⟨h.2.2.1, h.2.2.2, fun s2 s3 => ⟨rfl, rfl⟩⟩

/-- Witness for C6 on a concrete run whose third poll observes readiness
and whose later polls would observe it again. -/
theorem c6_witness :
    (⟨true, false, true⟩ : PollRefs).hasTimer = true ∧
    ((timerRun { state := {}, refs := ⟨true, false, true⟩, timerActive := true,
                 totalStatusLabelUpdates := 0, totalTimerCancels := 0 }
         [Except.ok false, Except.error "transient", Except.ok true,
          Except.ok true, Except.ok true]).totalTimerCancels ≤ 1 ∧
     (timerRun { state := {}, refs := ⟨true, false, true⟩, timerActive := true,
                 totalStatusLabelUpdates := 0, totalTimerCancels := 0 }
         [Except.ok false, Except.error "transient", Except.ok true,
          Except.ok true, Except.ok true]).totalStatusLabelUpdates ≤ 1 ∧
     (∀ s2 s3 : StellariumState,
       (check_engine_ready s2 ⟨true, false, true⟩ (Except.ok true)).2
         = (check_engine_ready s3 ⟨true, false, true⟩ (Except.ok true)).2 ∧
       (check_engine_ready s2 ⟨true, false, true⟩ (Except.ok true)).1.is_ready = true)) :=
  ⟨rfl, c6_cancel_once {} ⟨true, false, true⟩
      [Except.ok false, Except.error "transient", Except.ok true,
       Except.ok true, Except.ok true] rfl⟩

/-- Witness for C10 at concrete flag values. -/
theorem c10_witness :
    is_ready_run (EvalOutcome.success (readyExprEval (JSValue.bool true)))
      = Except.ok (decide (JSValue.bool true = JSValue.bool true)) ∧
    (is_ready_run (EvalOutcome.success (readyExprEval (JSValue.bool true))) = Except.ok true
      ↔ JSValue.bool true = JSValue.bool true) ∧
    is_ready_run (EvalOutcome.success (JSValue.num 2))
      = Except.ok (decide (JSValue.num 2 = JSValue.bool true)) ∧
    is_ready_run (EvalOutcome.success JSValue.null) = Except.ok false ∧
    is_ready_run (EvalOutcome.success JSValue.undefined) = Except.ok false ∧
    is_ready_run (EvalOutcome.success (JSValue.num 1)) = Except.ok false ∧
    is_ready_run (EvalOutcome.success (JSValue.str "true")) = Except.ok false :=
  c10_is_ready_boolean (JSValue.bool true) (JSValue.num 2)

/-- C8: the active configuration is write-once per process: the first
successful `mount` activates that instance, and once an instance is active
every later `mount` call — on the same instance (already mounted, returns
self) or on any other (returns the active one) — returns the active
instance and leaves the whole process state unchanged: no overwrite of
`_active`, no URL change, no further static mounts, under any sequence of
further calls. -/
theorem c8_config_write_once (fs : String → Bool) (p0 p : ConfigProcess)
    (i : ℕ) (c : StellariumConfig)
    (h0 : p0.active = none) (hc : p0.store[i]? = some c) (hcm : c.mounted = false)
    (hval : c.validate fs = Except.ok ())
    (hfb : fs (pathStr c.build_dir) = true) (hfd : fs (pathStr c.data_dir) = true)
    (hact : p.active = some i)
    (hm : ∀ k c2, p.store[k]? = some c2 → (c2.mounted = true ↔ k = i)) :
    ((StellariumConfig.mountStep fs p0 i).1.active = some i ∧
     (StellariumConfig.mountStep fs p0 i).2 = Except.ok i) ∧
    (∀ j, j < p.store.length → StellariumConfig.mountStep fs p j = (p, Except.ok i)) ∧
    (∀ j, (StellariumConfig.mountStep fs p j).1 = p) ∧
    (∀ js : List ℕ,
      js.foldl (fun q k => (StellariumConfig.mountStep fs q k).1) p = p) := by
  have hstate : ∀ j, (StellariumConfig.mountStep fs p j).1 = p := by
    intro j
    cases hj : p.store[j]? with
    | none => simp [StellariumConfig.mountStep, hj]
    | some c2 =>
      by_cases hb : c2.mounted = true
      · simp [StellariumConfig.mountStep, hj, hb]
      · have hb2 : c2.mounted = false := by
          cases hx : c2.mounted
          · rfl
          · exact absurd hx hb
        simp [StellariumConfig.mountStep, hj, hb2, hact]
  have hsub : ∀ j, j < p.store.length →
      StellariumConfig.mountStep fs p j = (p, Except.ok i) := by
    intro j hj
    have hjs : p.store[j]? = some p.store[j] := List.getElem?_eq_getElem hj
    by_cases hb : (p.store[j]).mounted = true
    · have hji : j = i := (hm j _ hjs).mp hb
      subst hji
      simp [StellariumConfig.mountStep, hjs, hb]
    · have hb2 : (p.store[j]).mounted = false := by
        cases hx : (p.store[j]).mounted
        · rfl
        · exact absurd hx hb
      simp [StellariumConfig.mountStep, hjs, hb2, hact]
  refine ⟨?_, hsub, hstate, ?_⟩
  · constructor <;> simp [StellariumConfig.mountStep, hc, hcm, h0, hval, hfb, hfd]
  · intro js
    induction js with
    | nil => rfl
    | cons a t ih =>
      simp only [List.foldl_cons, hstate a]
      exact ih

/-- Witness for C8 on the concrete one-instance process `procFresh`,
mounted into `procMounted`. -/
theorem c8_witness :
    (procFresh.active = none ∧
     procFresh.store[0]? = some cfgBD ∧
     cfgBD.mounted = false ∧
     cfgBD.validate fsNoWasm = Except.ok () ∧
     fsNoWasm (pathStr cfgBD.build_dir) = true ∧
     fsNoWasm (pathStr cfgBD.data_dir) = true ∧
     procMounted.active = some 0 ∧
     (∀ k c2, procMounted.store[k]? = some c2 → (c2.mounted = true ↔ k = 0))) ∧
    (((StellariumConfig.mountStep fsNoWasm procFresh 0).1.active = some 0 ∧
      (StellariumConfig.mountStep fsNoWasm procFresh 0).2 = Except.ok 0) ∧
     (∀ j, j < procMounted.store.length →
       StellariumConfig.mountStep fsNoWasm procMounted j = (procMounted, Except.ok 0)) ∧
     (∀ j, (StellariumConfig.mountStep fsNoWasm procMounted j).1 = procMounted) ∧
     (∀ js : List ℕ,
       js.foldl (fun q k => (StellariumConfig.mountStep fsNoWasm q k).1) procMounted
         = procMounted)) := by
  have hm : ∀ k c2, procMounted.store[k]? = some c2 → (c2.mounted = true ↔ k = 0) := by
    intro k c2 hk
    cases k with
    | zero =>
      have : c2 = { cfgBD.set_urls with mounted := true } := by
        have hk2 : procMounted.store[0]? =
            some { cfgBD.set_urls with mounted := true } := rfl
        rw [hk] at hk2
        exact Option.some_inj.mp hk2
      subst this
      simp
    | succ n =>
      have : procMounted.store[n + 1]? = none := rfl
      rw [hk] at this
      exact absurd this (by simp)
  exact ⟨⟨rfl, rfl, rfl, rfl, rfl, rfl, rfl, hm⟩,
    c8_config_write_once fsNoWasm procFresh procMounted 0 cfgBD
      rfl rfl rfl rfl rfl rfl rfl hm⟩

/-- C9 counterexample: on a file system where the build directory, the
engine script and the data directory all exist but the binary payload
`b/stellarium-web-engine.wasm` does not, `mount` succeeds and activates
the configuration: no failure is raised for the missing binary payload,
contradicting the claim that a failure is raised for every missing
required resource path. -/
theorem c9_counterexample :
    fsNoWasm "b/stellarium-web-engine.wasm" = false ∧
    (StellariumConfig.mountStep fsNoWasm procFresh 0).2 = Except.ok 0 ∧
    procMounted.active = some 0 :=
  ⟨rfl, rfl, rfl⟩

/-- C9 amended: a missing engine script raises `FileNotFoundError` from
`validate` (when `build_dir` is set) before any static mount or state
change; a missing build or data directory raises `RuntimeError` from the
static-file registration without marking anything mounted or active; and a
failed auto-discovery raises `RuntimeError` — all synchronously at mount
time, before rendering.  The binary payload, however, is never
existence-checked: whenever the engine script, the build directory and the
data directory exist, mount succeeds whatever the file system says about
`stellarium-web-engine.wasm`. -/
theorem c9_validation_scope (fs : String → Bool) (c : StellariumConfig)
    (bd : String) (p : ConfigProcess) (i : ℕ) (parents : List String)
    (hbd : c.build_dir = some bd)
    (hc : p.store[i]? = some c) (hcm : c.mounted = false) (hact : p.active = none)
    (hnone : ∀ parent ∈ parents, fs (parent ++ "/extern/stellarium") = false) :
    (∀ fs2 : String → Bool,
       fs2 (bd ++ "/stellarium-web-engine.js") = false →
       (StellariumConfig.mountStep fs2 p i).2
           = Except.error "FileNotFoundError: stellarium-web-engine.js not found" ∧
       (StellariumConfig.mountStep fs2 p i).1 = p) ∧
    (∀ fs2 : String → Bool,
       fs2 (bd ++ "/stellarium-web-engine.js") = true →
       fs2 bd = true →
       fs2 (pathStr c.data_dir) = false →
       (StellariumConfig.mountStep fs2 p i).2
           = Except.error
               ("RuntimeError: directory does not exist: " ++ pathStr c.data_dir) ∧
       (StellariumConfig.mountStep fs2 p i).1.active = none ∧
       (StellariumConfig.mountStep fs2 p i).1.store = p.store) ∧
    (StellariumConfig.auto_discover fs parents).isOk = false ∧
    (∀ fs2 : String → Bool,
       fs2 (bd ++ "/stellarium-web-engine.js") = true →
       fs2 bd = true →
       fs2 (pathStr c.data_dir) = true →
       (StellariumConfig.mountStep fs2 p i).2 = Except.ok i ∧
       (StellariumConfig.mountStep fs2 p i).1.active = some i) := by
  have hfind : List.find? (fun parent => fs (parent ++ "/extern/stellarium")) parents
      = none := by
    apply List.find?_eq_none.mpr
    intro x hx
    simp [hnone x hx]
  refine ⟨?_, ?_, ?_, ?_⟩
  · intro fs2 hjs2
    have hv2 : c.validate fs2
        = Except.error "FileNotFoundError: stellarium-web-engine.js not found" := by
      simp [StellariumConfig.validate, hbd, hjs2]
    constructor <;> simp [StellariumConfig.mountStep, hc, hcm, hact, hv2]
  · intro fs2 hjs2 hb2 hd2
    have hv2 : c.validate fs2 = Except.ok () := by
      simp [StellariumConfig.validate, hbd, hjs2]
    have hps : pathStr (some bd) = bd := rfl
    refine ⟨?_, ?_, ?_⟩ <;>
      simp [StellariumConfig.mountStep, hc, hcm, hact, hv2, hbd, hps, hb2, hd2]
  · have hdisc : StellariumConfig.auto_discover fs parents
        = Except.error "RuntimeError: Could not auto-discover Stellarium paths" := by
      simp [StellariumConfig.auto_discover, hfind]
    rw [hdisc]
    rfl
  · intro fs2 hjs2 hb2 hd2
    have hv2 : c.validate fs2 = Except.ok () := by
      simp [StellariumConfig.validate, hbd, hjs2]
    have hps : pathStr (some bd) = bd := rfl
    constructor <;>
      simp [StellariumConfig.mountStep, hc, hcm, hact, hv2, hbd, hps, hb2, hd2]

/-- Witness for C9 at the concrete one-instance process `procFresh`. -/
theorem c9_witness :
    (cfgBD.build_dir = some "b" ∧
     procFresh.store[0]? = some cfgBD ∧
     cfgBD.mounted = false ∧
     procFresh.active = none ∧
     (∀ parent ∈ ["home"],
       (fun _ : String => false) (parent ++ "/extern/stellarium") = false)) ∧
    ((∀ fs2 : String → Bool,
        fs2 ("b" ++ "/stellarium-web-engine.js") = false →
        (StellariumConfig.mountStep fs2 procFresh 0).2
            = Except.error "FileNotFoundError: stellarium-web-engine.js not found" ∧
        (StellariumConfig.mountStep fs2 procFresh 0).1 = procFresh) ∧
     (∀ fs2 : String → Bool,
        fs2 ("b" ++ "/stellarium-web-engine.js") = true →
        fs2 "b" = true →
        fs2 (pathStr cfgBD.data_dir) = false →
        (StellariumConfig.mountStep fs2 procFresh 0).2
            = Except.error
                ("RuntimeError: directory does not exist: " ++ pathStr cfgBD.data_dir) ∧
        (StellariumConfig.mountStep fs2 procFresh 0).1.active = none ∧
        (StellariumConfig.mountStep fs2 procFresh 0).1.store = procFresh.store) ∧
     (StellariumConfig.auto_discover (fun _ => false) ["home"]).isOk = false ∧
     (∀ fs2 : String → Bool,
        fs2 ("b" ++ "/stellarium-web-engine.js") = true →
        fs2 "b" = true →
        fs2 (pathStr cfgBD.data_dir) = true →
        (StellariumConfig.mountStep fs2 procFresh 0).2 = Except.ok 0 ∧
        (StellariumConfig.mountStep fs2 procFresh 0).1.active = some 0)) :=
  ⟨⟨rfl, rfl, rfl, rfl, by simp⟩,
    c9_validation_scope (fun _ => false) cfgBD "b" procFresh 0 ["home"]
      rfl rfl rfl rfl (by simp)⟩

end Stellarium
